import Mathlib

/-!
Verification of the Gestel2026Api trap-ingestion pipeline.

A shallow embedding of `app/services/trap_processor_service.py` together with
the pieces of `app/config.py` and `app/schemas/evento_schema.py` it uses.
Strings are modelled as `List Char` internally; lines and file contents are
`String` at the interface.  Python semantics that matter here — substring
membership (`in`), `str.index`, slicing with a possibly negative upper bound,
`str.strip`, `int(...)`, datetime construction with range validation, and
`0`/`None`/`""`/`[]` falsiness — are modelled explicitly.
-/

namespace Gestel

/-! Section: Character-list string primitives (Python `in`, `index`, slice, strip, split) -/

/-- `listIsPrefixOf p l` decides whether `p` is a prefix of `l`. -/
def listIsPrefixOf : List Char → List Char → Bool
  | [], _ => true
  | _ :: _, [] => false
  | a :: as, b :: bs => a == b && listIsPrefixOf as bs

/-- Python `needle in hay` for strings: `needle` occurs as a contiguous substring. -/
def containsSub (hay needle : List Char) : Bool :=
  match hay with
  | [] => needle.isEmpty
  | _ :: t => listIsPrefixOf needle hay || containsSub t needle

/-- `strIn needle hay` is Python's `needle in hay`. -/
def strIn (needle hay : String) : Bool :=
  containsSub hay.toList needle.toList

/-- Helper for `firstIndex`: position of the first occurrence, offset by `acc`. -/
def firstIndexAux : List Char → List Char → Nat → Option Nat
  | [], needle, acc => if needle.isEmpty then some acc else none
  | c :: t, needle, acc =>
    if listIsPrefixOf needle (c :: t) then some acc else firstIndexAux t needle (acc + 1)

/-- Python `hay.index(needle)`: index of first occurrence, `none` models the
`ValueError` raised when the substring is absent. -/
def firstIndex (hay needle : List Char) : Option Nat :=
  firstIndexAux hay needle 0

/-- Python whitespace for `str.strip()`. -/
def isPySpace (c : Char) : Bool :=
  c == ' ' || c == '\t' || c == '\n' || c == '\r' || c == '\x0b' || c == '\x0c'

/-- Python `s.strip()`. -/
def pyStrip (s : List Char) : List Char :=
  ((s.dropWhile isPySpace).reverse.dropWhile isPySpace).reverse

/-- `str.strip()` on `String`s. -/
def pyStripStr (s : String) : String :=
  ⟨pyStrip s.toList⟩

/-- Python slice `s[a:b]` for `0 ≤ a` and an `Int` upper bound `b`
(negative `b` counts from the end, clamped at 0). -/
def pySlice (s : List Char) (a : Nat) (b : Int) : List Char :=
  let n : Int := s.length
  let b' : Nat := if b < 0 then (n + b).toNat else b.toNat
  (s.take b').drop a

/-- Python slice `s[a:]`. -/
def pySliceFrom (s : List Char) (a : Nat) : List Char :=
  s.drop a

/-- Helper for `splitOnChar`, accumulating the current (reversed) chunk. -/
def splitOnCharAux (sep : Char) : List Char → List Char → List (List Char)
  | [], acc => [acc.reverse]
  | c :: t, acc =>
    if c == sep then acc.reverse :: splitOnCharAux sep t []
    else splitOnCharAux sep t (c :: acc)

/-- Python `s.split(sep)` for a one-character separator (always non-empty result,
`"" .split(c) = [""]`). -/
def splitOnChar (sep : Char) (s : List Char) : List (List Char) :=
  splitOnCharAux sep s []

/-- Digits of a decimal literal; `none` on empty input or any non-digit. -/
def digitsToNat? : List Char → Option Nat
  | [] => none
  | cs => go cs 0
where
  go : List Char → Nat → Option Nat
    | [], acc => some acc
    | c :: t, acc =>
      if c.isDigit then go t (acc * 10 + (c.toNat - '0'.toNat)) else none

/-- Python `int(s)` on a string: optional surrounding whitespace, optional sign,
then decimal digits; `none` models the `ValueError` on anything else. -/
def pyInt (s : List Char) : Option Int :=
  match pyStrip s with
  | '-' :: rest => (digitsToNat? rest).map (fun n => -(n : Int))
  | '+' :: rest => (digitsToNat? rest).map Int.ofNat
  | other => (digitsToNat? other).map Int.ofNat

/-! Section: Configuration (`app/config.py`, class `Settings`) -/

/-- `Settings.DEFAULT_OPERATOR_ID`. -/
def DEFAULT_OPERATOR_ID : Nat := 1

/-- `Settings.EVENTO_DOWN`. -/
def EVENTO_DOWN : Nat := 1

/-- `Settings.EVENTO_UP`. -/
def EVENTO_UP : Nat := 2

/-- `Settings.TIPO_IDENTIFICADOR_IP`. -/
def TIPO_IDENTIFICADOR_IP : Nat := 2

/-! Section: Datetime (`datetime.datetime` as used by the service) -/

/-- A validated `datetime.datetime` value (seconds precision, as constructed by
`_extract_date`). -/
structure PyDateTime where
  year : Nat
  month : Nat
  day : Nat
  hour : Nat
  minute : Nat
  second : Nat
deriving DecidableEq, Repr

/-- Gregorian leap-year rule (as in `calendar`/`datetime`). -/
def isLeapYear (y : Nat) : Bool :=
  y % 4 == 0 && (y % 100 != 0 || y % 400 == 0)

/-- Days in a month, matching `datetime`'s validation table. -/
def daysInMonth (y m : Nat) : Nat :=
  if m == 2 then (if isLeapYear y then 29 else 28)
  else if m == 4 || m == 6 || m == 9 || m == 11 then 30
  else 31

/-- `datetime.datetime(year, month, day, hour, minute, second)`: `none` models
the `ValueError` raised on out-of-range components. -/
def mkDateTime? (y mo d h mi s : Int) : Option PyDateTime :=
  if 1 ≤ y ∧ y ≤ 9999 ∧ 1 ≤ mo ∧ mo ≤ 12 ∧ 1 ≤ d ∧ d ≤ (daysInMonth y.toNat mo.toNat : Int)
      ∧ 0 ≤ h ∧ h ≤ 23 ∧ 0 ≤ mi ∧ mi ≤ 59 ∧ 0 ≤ s ∧ s ≤ 59 then
    some ⟨y.toNat, mo.toNat, d.toNat, h.toNat, mi.toNat, s.toNat⟩
  else
    none

/-! Section: Date extraction (`TrapProcessorService._extract_date`) -/

/-- `_extract_date(date_part)`: split on `-` into year, month and a fused
day+time block; two-digit day prefix; `:`-separated time; seconds truncated to
two digits.  `none` models the caught exception (→ `None`). -/
def extractDate (datePart : List Char) : Option PyDateTime := do
  let parts := splitOnChar '-' datePart
  let year ← pyInt (← parts.get? 0)
  let month ← pyInt (← parts.get? 1)
  let dayTime ← parts.get? 2
  let day ← pyInt (dayTime.take 2)
  let timePart := dayTime.drop 2
  let timeParts := splitOnChar ':' timePart
  let hour ← pyInt (← timeParts.get? 0)
  let minute ← pyInt (← timeParts.get? 1)
  let second ← pyInt ((← timeParts.get? 2).take 2)
  mkDateTime? year month day hour minute second

/-- `_extract_date` on a `String` date field. -/
def extractDateStr (datePart : String) : Option PyDateTime :=
  extractDate datePart.toList

/-! Section: Data model -/

/-- One row of the `IdentificadorObjeto` table: identifier text, identifier
kind, owning object id. -/
structure IdentRecord where
  valor : String
  tipo : Nat
  objetoId : Nat
deriving DecidableEq, Repr

/-- The database session as the service sees it: the identifier catalogue and
whether queries succeed (`available = false` models a raised storage error). -/
structure Database where
  catalogue : List IdentRecord
  available : Bool
deriving DecidableEq, Repr

/-- The CandidateEvent value object of the spec's data model (object id, event
kind, timestamp, operator id, optional note), i.e. the record that
deduplication and SQL emission consume.  The source's pydantic class
`EventoCreate` (`app/schemas/evento_schema.py`) cannot actually produce such a
value at runtime: its `fecha` field annotates the `datetime` MODULE (not the
class), so the class fails to build under pydantic v2, and the service passes
`Observaciones=[]`, which can never validate against `Optional[str]` — see
`mkEventoCreate` below for that constructor call. -/
structure EventoCreate where
  objetoId : Nat
  tipoEvento : Nat
  operadorRegistroId : Nat
  fecha : PyDateTime
  observaciones : Option String
deriving DecidableEq, Repr

/-- The `EventoCreate(ObjetoId=..., TipoEvento=..., OperadorRegistroId=...,
Fecha=..., Observaciones=[])` call made by `_process_tunnel_line` and
`_process_object_name_line`.  It always raises: `[]` is never a valid
`Optional[str]` for `Observaciones`, and under pydantic v2 the class itself
cannot even be built because `fecha: datetime` annotates the module.  The
exception is caught by the surrounding `except`, so the call never yields an
event — hence the constant `none`. -/
def mkEventoCreate (_objetoId _tipoEvento _operadorRegistroId : Nat)
    (_fecha : PyDateTime) : Option EventoCreate :=
  none

/-- The mutable attributes of `TrapProcessorService` plus its session. -/
structure ServiceState where
  db : Database
  ipList : List String
  cache : List (String × Nat)
deriving DecidableEq, Repr

/-! Section: Identifier resolution (`_get_objeto_id_by_identifier`, `_find_by_ip`) -/

/-- Membership test used for the cache dictionary (`identifier in cache`). -/
def cacheLookup (cache : List (String × Nat)) (k : String) : Option Nat :=
  match cache with
  | [] => none
  | (k', v) :: rest => if k' = k then some v else cacheLookup rest k

/-- `_get_objeto_id_by_identifier(identifier)`: empty fragment → `None`; cache
hit → cached id; otherwise query the catalogue for the first record whose
`ValorIdentificador` contains the fragment (`.contains(identifier).limit(1)`),
cache and return its object id; no row → `None`; a storage exception is caught
and yields `None` with no cache write. -/
def getObjetoIdByIdentifier (s : ServiceState) (identifier : String) :
    Option Nat × ServiceState :=
  if identifier = "" then (none, s)
  else
    match cacheLookup s.cache identifier with
    | some v => (some v, s)
    | none =>
      if s.db.available then
        match (s.db.catalogue.filter (fun r => strIn identifier r.valor)).head? with
        | some r => (some r.objetoId, { s with cache := (identifier, r.objetoId) :: s.cache })
        | none => (none, s)
      else
        (none, s)

/-- Python truthiness of an `Optional[int]`: `None` and `0` are falsy. -/
def truthyOpt (o : Option Nat) : Bool :=
  match o with
  | some v => v ≠ 0
  | none => false

/-- Loop body of `_find_by_ip`: scan the remaining IPs; for an IP occurring in
the line, resolve `ip.strip()`; a truthy (nonzero) id is returned with the
post-resolution state, a falsy one (`None` or `0`) moves on to the next IP. -/
def findByIpAux : ServiceState → String → List String → Option Nat × ServiceState
  | s, _, [] => (none, s)
  | s, line, ip :: rest =>
    if strIn ip line then
      let r := getObjetoIdByIdentifier s (pyStripStr ip)
      if truthyOpt r.1 then r else findByIpAux r.2 line rest
    else
      findByIpAux s line rest

/-- `_find_by_ip(line)`. -/
def findByIp (s : ServiceState) (line : String) : Option Nat × ServiceState :=
  findByIpAux s line s.ipList

/-! Section: Line classification (`UP_PATTERNS`, `DOWN_PATTERNS`,
`_determine_event_type`, `_extract_useful_lines`) -/

/-- `TrapProcessorService.UP_PATTERNS`. -/
def UP_PATTERNS : List String :=
  ["LOADING to FULL", "is up:", "changed state to up",
   "state has changed from BAD to GOOD"]

/-- `TrapProcessorService.DOWN_PATTERNS`. -/
def DOWN_PATTERNS : List String :=
  ["FULL to DOWN", "is down:", "changed state to down",
   "state has changed from BAD to DEAD"]

/-- `_determine_event_type(line)`: first matching up-pattern → `EVENTO_UP`,
else first matching down-pattern → `EVENTO_DOWN`, else `0`. -/
def determineEventType (line : String) : Nat :=
  if UP_PATTERNS.any (fun p => strIn p line) then EVENTO_UP
  else if DOWN_PATTERNS.any (fun p => strIn p line) then EVENTO_DOWN
  else 0

/-- The per-line filter of `_extract_useful_lines`: the line contains some
pattern from either vocabulary. -/
def isUseful (line : String) : Bool :=
  (UP_PATTERNS ++ DOWN_PATTERNS).any (fun p => strIn p line)

/-- `_extract_useful_lines` on an already-read list of raw lines: keep the
useful ones, stripped. -/
def extractUsefulLines (rawLines : List String) : List String :=
  (rawLines.filter isUseful).map pyStripStr

/-! Section: Per-line extraction (`_process_tunnel_line`, `_process_object_name_line`,
`_process_line`) -/

/-- The "marca" extraction of `_process_tunnel_line`: for the
`FULL to DOWN` / `LOADING to FULL` phrasings, `line[line.index("Tunnel"):
line.index("from")].strip()`; for the `changed state to up/down` phrasings,
`line[line.index("Tunnel"):line.index("changed") - 2].strip()`; other shapes
return `None`, and a missing keyword raises `ValueError` (caught → `None`). -/
def tunnelMarca (line : String) : Option String :=
  let cs := line.toList
  if strIn "FULL to DOWN" line || strIn "LOADING to FULL" line then
    match firstIndex cs "Tunnel".toList, firstIndex cs "from".toList with
    | some idxTunnel, some idxFrom =>
      some ⟨pyStrip (pySlice cs idxTunnel (idxFrom : Int))⟩
    | _, _ => none
  else if strIn "changed state to down" line || strIn "changed state to up" line then
    match firstIndex cs "Tunnel".toList, firstIndex cs "changed".toList with
    | some idxTunnel, some idxChanged =>
      some ⟨pyStrip (pySlice cs idxTunnel ((idxChanged : Int) - 2))⟩
    | _, _ => none
  else
    none

/-- The marker-then-IP-fallback resolution of `_process_tunnel_line`:
`objeto_id = resolve(marca)`, then `if not objeto_id: objeto_id =
find_by_ip(line)` (the fallback sees the cache updates of the first call). -/
def tunnelResolve (s : ServiceState) (marca line : String) : Option Nat × ServiceState :=
  if truthyOpt (getObjetoIdByIdentifier s marca).1 then getObjetoIdByIdentifier s marca
  else findByIp (getObjetoIdByIdentifier s marca).2 line

/-- `_process_tunnel_line(line, parts)`.  Marker extraction, resolution (with
IP fallback), date parsing and classification proceed as in the source; the
final `EventoCreate(..., Observaciones=[])` call (`mkEventoCreate`) always
raises and is caught, so the function never returns an event. -/
def processTunnelLine (s : ServiceState) (line : String) (parts : List String) :
    Option EventoCreate × ServiceState :=
  match tunnelMarca line with
  | none => (none, s)
  | some marca =>
    if truthyOpt (tunnelResolve s marca line).1 then
      match parts.get? 0 with
      | none => (none, (tunnelResolve s marca line).2)
      | some datePart =>
        match extractDateStr datePart with
        | none => (none, (tunnelResolve s marca line).2)
        | some fecha =>
          if determineEventType line = 0 then (none, (tunnelResolve s marca line).2)
          else
            (mkEventoCreate ((tunnelResolve s marca line).1.getD 0) (determineEventType line)
              DEFAULT_OPERATOR_ID fecha, (tunnelResolve s marca line).2)
    else
      (none, (tunnelResolve s marca line).2)

/-- The identifier extraction of `_process_object_name_line`:
`line[idx + 12:].split('.')[0]`. -/
def objectNameMarca (line : String) (idx : Nat) : String :=
  ⟨(splitOnChar '.' (pySliceFrom line.toList (idx + 12))).headI⟩

/-- `_process_object_name_line(line, parts)`: the identifier is the text after
`Object_Name=` up to the first `.`; resolution has no IP fallback.  As in the
tunnel path, the final `EventoCreate(..., Observaciones=[])` call
(`mkEventoCreate`) always raises and is caught, so no event is ever
returned. -/
def processObjectNameLine (s : ServiceState) (line : String) (parts : List String) :
    Option EventoCreate × ServiceState :=
  match firstIndex line.toList "Object_Name=".toList with
  | none => (none, s)
  | some idx =>
    if truthyOpt (getObjetoIdByIdentifier s (objectNameMarca line idx)).1 then
      match parts.get? 0 with
      | none => (none, (getObjetoIdByIdentifier s (objectNameMarca line idx)).2)
      | some datePart =>
        match extractDateStr datePart with
        | none => (none, (getObjetoIdByIdentifier s (objectNameMarca line idx)).2)
        | some fecha =>
          if determineEventType line = 0 then
            (none, (getObjetoIdByIdentifier s (objectNameMarca line idx)).2)
          else
            (mkEventoCreate ((getObjetoIdByIdentifier s (objectNameMarca line idx)).1.getD 0)
              (determineEventType line) DEFAULT_OPERATOR_ID fecha,
             (getObjetoIdByIdentifier s (objectNameMarca line idx)).2)
    else
      (none, (getObjetoIdByIdentifier s (objectNameMarca line idx)).2)

/-- `_process_line(line)`: split on tab, require at least two fields, dispatch
on the `Tunnel` / `Object_Name=` markers. -/
def processLine (s : ServiceState) (line : String) : Option EventoCreate × ServiceState :=
  let parts : List String := (splitOnChar '\t' line.toList).map (fun cs => ⟨cs⟩)
  if parts.length < 2 then (none, s)
  else if strIn "Tunnel" line then processTunnelLine s line parts
  else if strIn "Object_Name=" line then processObjectNameLine s line parts
  else (none, s)

/-! Section: Deduplication (`_remove_duplicates`) -/

/-- The deduplication key `(event.objeto_id, event.tipo_evento, event.fecha)`. -/
def eventKey (e : EventoCreate) : Nat × Nat × PyDateTime :=
  (e.objetoId, e.tipoEvento, e.fecha)

/-- Membership in the `seen` set of keys. -/
def seenHas (seen : List (Nat × Nat × PyDateTime)) (k : Nat × Nat × PyDateTime) : Bool :=
  seen.any (fun k' => decide (k' = k))

/-- Loop of `_remove_duplicates`, carrying the `seen` set. -/
def removeDuplicatesAux : List EventoCreate → List (Nat × Nat × PyDateTime) → List EventoCreate
  | [], _ => []
  | e :: rest, seen =>
    if seenHas seen (eventKey e) then removeDuplicatesAux rest seen
    else e :: removeDuplicatesAux rest (eventKey e :: seen)

/-- `_remove_duplicates(events)`. -/
def removeDuplicates (events : List EventoCreate) : List EventoCreate :=
  removeDuplicatesAux events []

/-! Section: Output emission (`_generate_sql_script`, `_generate_error_file`) -/

/-- Zero-padded two-digit field (`%m`, `%d`, `%H`, `%M`, `%S`). -/
def pad2 (n : Nat) : String :=
  if n < 10 then "0" ++ toString n else toString n

/-- Zero-padded four-digit year (`%Y` for years below 10000). -/
def pad4 (n : Nat) : String :=
  if n < 10 then "000" ++ toString n
  else if n < 100 then "00" ++ toString n
  else if n < 1000 then "0" ++ toString n
  else toString n

/-- `fecha.strftime("%Y-%m-%d %H:%M:%S")`. -/
def strftime (d : PyDateTime) : String :=
  pad4 d.year ++ "-" ++ pad2 d.month ++ "-" ++ pad2 d.day ++ " " ++
    pad2 d.hour ++ ":" ++ pad2 d.minute ++ ":" ++ pad2 d.second

/-- One `INSERT` statement of `_generate_sql_script` (text written per event). -/
def insertLine (e : EventoCreate) : String :=
  "INSERT INTO Evento (ObjetoId, TipoEvento, OperadorRegistroId, Fecha) " ++
    "VALUES (" ++ toString e.objetoId ++ ", " ++ toString e.tipoEvento ++ ", " ++
    toString e.operadorRegistroId ++ ", '" ++ strftime e.fecha ++ "');\n"

/-- Content written by `_generate_sql_script`: header, the per-event loop of
`f.write` calls (a left fold over the events), then commit and the
commented-out rollback. -/
def generateSqlContent (events : List EventoCreate) : String :=
  let body := events.foldl (fun acc e => acc ++ insertLine e) ""
  "BEGIN TRANSACTION;\n\n" ++ body ++ "\nCOMMIT;\n" ++ "-- ROLLBACK;\n"

/-- The SQL script filename `f"InsertSQLEventos-{filename}.sql"`. -/
def sqlFileName (filename : String) : String :=
  "InsertSQLEventos-" ++ filename ++ ".sql"

/-- `_generate_sql_script(events, filename)` as (path, written content). -/
def generateSqlScript (events : List EventoCreate) (filename : String) : String × String :=
  (sqlFileName filename, generateSqlContent events)

/-- Content written by `_generate_error_file`: one `f"{error}\n"` per entry. -/
def generateErrorContent (errors : List String) : String :=
  errors.foldl (fun acc e => acc ++ (e ++ "\n")) ""

/-- The error file name `f"ErroresImportant-{filename}"`. -/
def errorFileName (filename : String) : String :=
  "ErroresImportant-" ++ filename

/-- `_generate_error_file(errors, filename)` as (path, written content). -/
def generateErrorFile (errors : List String) (filename : String) : String × String :=
  (errorFileName filename, generateErrorContent errors)

/-- The error-file step of `process_file`:
`await self._generate_error_file(errors, file_path.name) if errors else None`.
Python's empty-list falsiness: an empty error list writes nothing and the
result is `None`. -/
def errorFileStep (errors : List String) (filename : String) : Option (String × String) :=
  if errors = [] then none else some (generateErrorFile errors filename)

/-! Section: Per-file and whole-run orchestration (`process_file`, `process_all_traps`) -/

/-- Per-file summary (the dict returned by `process_file`, minus wall-clock
timing). Output files are carried as (path, content) pairs. -/
structure FileResult where
  filename : String
  events : List EventoCreate
  eventsCount : Nat
  errorsCount : Nat
  sqlFile : String × String
  errorFile : Option (String × String)
deriving DecidableEq, Repr

/-- The per-line loop of `process_file`: collect events and error strings in
order, threading the service state. -/
def processLinesAux : ServiceState → List String → List EventoCreate × List String × ServiceState
  | s, [] => ([], [], s)
  | s, line :: rest =>
    match processLine s line with
    | (some e, s') =>
      let (evs, errs, s'') := processLinesAux s' rest
      (e :: evs, errs, s'')
    | (none, s') =>
      let (evs, errs, s'') := processLinesAux s' rest
      (evs, ("No se pudo procesar: " ++ line) :: errs, s'')

/-- `process_file(path)` on a file given as (name, raw lines). -/
def processFile (s : ServiceState) (filename : String) (rawLines : List String) :
    FileResult × ServiceState :=
  let usefulLines := extractUsefulLines rawLines
  let (events, errors, s') := processLinesAux s usefulLines
  let uniqueEvents := removeDuplicates events
  let sqlFile := generateSqlScript uniqueEvents filename
  let errorFile := errorFileStep errors filename
  (⟨filename, uniqueEvents, uniqueEvents.length, errors.length, sqlFile, errorFile⟩, s')

/-- `_load_ip_list()`: all `ValorIdentificador` of kind `TIPO_IDENTIFICADOR_IP`;
a storage failure is re-raised (`Except.error`). -/
def loadIpList (db : Database) : Except Unit (List String) :=
  if db.available then
    Except.ok ((db.catalogue.filter (fun r => r.tipo == TIPO_IDENTIFICADOR_IP)).map
      (fun r => r.valor))
  else
    Except.error ()

/-- Run summary (the dict returned by `process_all_traps`, minus timing). -/
structure RunResult where
  success : Bool
  message : String
  filesProcessed : Nat
  totalEvents : Nat
  totalErrors : Nat
  sqlFiles : List (String × String)
  errorFiles : List (String × String)
deriving DecidableEq, Repr

/-- Fold of `process_file` over the discovered files. -/
def processFilesAux : ServiceState → List (String × List String) →
    List FileResult × ServiceState
  | s, [] => ([], s)
  | s, (name, lines) :: rest =>
    let (r, s') := processFile s name lines
    let (rs, s'') := processFilesAux s' rest
    (r :: rs, s'')

/-- `process_all_traps()` over a database and a directory listing of trap files
(name, raw lines).  The identifier load is the first action; its failure is
re-raised before any file is discovered or processed. -/
def processAllTraps (db : Database) (files : List (String × List String)) :
    Except Unit (RunResult × ServiceState) :=
  match loadIpList db with
  | Except.error e => Except.error e
  | Except.ok ips =>
    let s₀ : ServiceState := ⟨db, ips, []⟩
    if files = [] then
      Except.ok (⟨false, "No se encontraron archivos para importar", 0, 0, 0, [], []⟩, s₀)
    else
      let (results, s') := processFilesAux s₀ files
      Except.ok
        (⟨true, "Procesamiento completado exitosamente", files.length,
          (results.map (fun r => r.eventsCount)).sum,
          (results.map (fun r => r.errorsCount)).sum,
          results.map (fun r => r.sqlFile),
          (results.filterMap (fun r => r.errorFile))⟩, s')

/-! Section: Helper lemmas -/

/-- Folding `++` over a list of strings appends their join to the accumulator. -/
theorem string_foldl_append : ∀ (l : List String) (acc : String),
    l.foldl (· ++ ·) acc = acc ++ String.join l
  | [], acc => by
    show acc = acc ++ String.join []
    rw [show String.join [] = "" from rfl, String.append_empty]
  | a :: l, acc => by
    show l.foldl (· ++ ·) (acc ++ a) = acc ++ String.join (a :: l)
    have hjc : String.join (a :: l) = a ++ String.join l := by
      show l.foldl (· ++ ·) ("" ++ a) = a ++ String.join l
      rw [string_foldl_append l ("" ++ a), String.empty_append]
    rw [string_foldl_append l (acc ++ a), hjc, String.append_assoc]

/-- The write loop over a mapped list is the join of the map. -/
theorem foldl_append_map_eq_join (f : α → String) (l : List α) :
    l.foldl (fun acc e => acc ++ f e) "" = String.join (l.map f) :=
  (List.foldl_map f (fun acc s => acc ++ s) l "").symm.trans
    ((string_foldl_append (l.map f) "").trans (String.empty_append _))

/-- The service state after `_load_ip_list` on an available database. -/
def mkLoadedState (cat : List IdentRecord) : ServiceState :=
  ⟨⟨cat, true⟩,
   (cat.filter (fun r => r.tipo == TIPO_IDENTIFICADOR_IP)).map (fun r => r.valor),
   []⟩

/-- The line of the C1 scenario. -/
def c1Line : String :=
  "2025-3-1409:15:42.500\tTunnel T1 from X changed state to down"

/-! Section: Claims -/

/-- C3: the date parser maps `"2025-3-1409:15:42.500"` to the timestamp
2025-03-14 09:15:42 (fractional seconds discarded) and maps `"bad-token"` to
the malformed result (`none`). -/
theorem dateParser_examples :
    extractDateStr "2025-3-1409:15:42.500" = some ⟨2025, 3, 14, 9, 15, 42⟩ ∧
    extractDateStr "bad-token" = none := by
  decide

/-- C1: evaluation at the claim's scenario, in its most favorable reading — the
line `2025-3-1409:15:42.500\tTunnel T1 from X changed state to down` with
`"T1"` in the catalogue as an IP-kind identifier mapping to object id 42.
Marker extraction yields the fragment `"Tunnel T1 from"`, resolution succeeds
with 42 through the known-IP fallback, the date parses and the line classifies
as DOWN — yet no candidate event is produced (the `EventoCreate` construction
always fails) and the line lands in the error report instead of the SQL
batch. -/
theorem eventExtractor_constructor_code_bug :
    tunnelMarca c1Line = some "Tunnel T1 from" ∧
    (tunnelResolve (mkLoadedState [⟨"T1", TIPO_IDENTIFICADOR_IP, 42⟩])
      "Tunnel T1 from" c1Line).1 = some 42 ∧
    extractDateStr "2025-3-1409:15:42.500" = some ⟨2025, 3, 14, 9, 15, 42⟩ ∧
    determineEventType c1Line = EVENTO_DOWN ∧
    (processLine (mkLoadedState [⟨"T1", TIPO_IDENTIFICADOR_IP, 42⟩]) c1Line).1 = none ∧
    (processFile (mkLoadedState [⟨"T1", TIPO_IDENTIFICADOR_IP, 42⟩])
      "traps.txt" [c1Line]).1.events = [] ∧
    (processFile (mkLoadedState [⟨"T1", TIPO_IDENTIFICADOR_IP, 42⟩])
      "traps.txt" [c1Line]).1.errorsCount = 1 := by
  decide

/-- C4: a line that passes the usefulness filter (contains a marker phrase of
either vocabulary) is classified as `EVENTO_UP` or `EVENTO_DOWN`, never as the
unknown value `0`. -/
theorem classifier_total_on_useful (line : String) (h : isUseful line = true) :
    (determineEventType line = EVENTO_UP ∨ determineEventType line = EVENTO_DOWN) ∧
      determineEventType line ≠ 0 := by
  unfold isUseful at h
  rw [List.any_append, Bool.or_eq_true] at h
  unfold determineEventType
  by_cases hu : UP_PATTERNS.any (fun p => strIn p line) = true
  · rw [if_pos hu]
    exact ⟨Or.inl rfl, by decide⟩
  · have hd : DOWN_PATTERNS.any (fun p => strIn p line) = true := by
      rcases h with h | h
      · exact absurd h hu
      · exact h
    rw [if_neg hu, if_pos hd]
    exact ⟨Or.inr rfl, by decide⟩

/-- C4 (witness): a concrete useful line. -/
theorem classifier_total_on_useful_witness :
    isUseful "Interface X is up: reason" = true ∧
    ((determineEventType "Interface X is up: reason" = EVENTO_UP ∨
        determineEventType "Interface X is up: reason" = EVENTO_DOWN) ∧
      determineEventType "Interface X is up: reason" ≠ 0) :=
  ⟨by decide, classifier_total_on_useful "Interface X is up: reason" (by decide)⟩

/-- C5: the generated SQL script wraps the `INSERT` statements, in deduplicated
event order, in a single transaction opened by `BEGIN TRANSACTION;` and closed
by `COMMIT;` with a commented-out `ROLLBACK;` after it; for the empty event
list the content is `BEGIN TRANSACTION;` followed by `COMMIT;` (plus the
rollback comment) with no INSERT text at all. -/
theorem sqlScript_transactional (events : List EventoCreate) (filename : String) :
    generateSqlScript events filename =
      (sqlFileName filename,
        "BEGIN TRANSACTION;\n\n" ++ String.join (events.map insertLine) ++
          "\nCOMMIT;\n-- ROLLBACK;\n") ∧
    generateSqlContent [] = "BEGIN TRANSACTION;\n\n\nCOMMIT;\n-- ROLLBACK;\n" ∧
    strIn "INSERT" (generateSqlContent []) = false := by
  refine ⟨?_, by decide, by decide⟩
  unfold generateSqlScript generateSqlContent
  rw [foldl_append_map_eq_join insertLine events]
  have hcr : ("\nCOMMIT;\n" : String) ++ "-- ROLLBACK;\n" = "\nCOMMIT;\n-- ROLLBACK;\n" := by
    decide
  rw [String.append_assoc, hcr]

/-! Section: Deduplicator lemmas (C2) -/

/-- `seenHas` decides membership in the `seen` set. -/
theorem seenHas_iff (seen : List (Nat × Nat × PyDateTime)) (k : Nat × Nat × PyDateTime) :
    seenHas seen k = true ↔ k ∈ seen := by
  unfold seenHas
  rw [List.any_eq_true]
  constructor
  · rintro ⟨k', hk', hdec⟩
    rw [decide_eq_true_eq] at hdec
    exact hdec ▸ hk'
  · intro hk
    exact ⟨k, hk, by simp⟩

/-- The dedup loop yields a sublist of its input (first-seen order preserved). -/
theorem removeDuplicatesAux_sublist :
    ∀ (l : List EventoCreate) (seen : List (Nat × Nat × PyDateTime)),
      (removeDuplicatesAux l seen).Sublist l
  | [], _ => by simp [removeDuplicatesAux]
  | e :: rest, seen => by
    unfold removeDuplicatesAux
    by_cases h : seenHas seen (eventKey e) = true
    · rw [if_pos h]
      exact (removeDuplicatesAux_sublist rest seen).cons e
    · rw [if_neg h]
      exact (removeDuplicatesAux_sublist rest (eventKey e :: seen)).cons₂ e

/-- No element surviving the dedup loop has a key already in `seen`. -/
theorem removeDuplicatesAux_key_not_seen :
    ∀ (l : List EventoCreate) (seen : List (Nat × Nat × PyDateTime)) (e : EventoCreate),
      e ∈ removeDuplicatesAux l seen → eventKey e ∉ seen
  | [], _, e, he => by simp [removeDuplicatesAux] at he
  | e₀ :: rest, seen, e, he => by
    unfold removeDuplicatesAux at he
    by_cases h : seenHas seen (eventKey e₀) = true
    · rw [if_pos h] at he
      exact removeDuplicatesAux_key_not_seen rest seen e he
    · rw [if_neg h] at he
      rcases List.mem_cons.mp he with rfl | he'
      · intro hmem
        exact h ((seenHas_iff seen (eventKey e)).mpr hmem)
      · have := removeDuplicatesAux_key_not_seen rest (eventKey e₀ :: seen) e he'
        intro hmem
        exact this (List.mem_cons_of_mem _ hmem)

/-- The dedup loop output has pairwise distinct keys. -/
theorem removeDuplicatesAux_pairwise :
    ∀ (l : List EventoCreate) (seen : List (Nat × Nat × PyDateTime)),
      (removeDuplicatesAux l seen).Pairwise (fun a b => eventKey a ≠ eventKey b)
  | [], _ => by simp [removeDuplicatesAux]
  | e₀ :: rest, seen => by
    unfold removeDuplicatesAux
    by_cases h : seenHas seen (eventKey e₀) = true
    · rw [if_pos h]
      exact removeDuplicatesAux_pairwise rest seen
    · rw [if_neg h]
      refine List.Pairwise.cons ?_ (removeDuplicatesAux_pairwise rest (eventKey e₀ :: seen))
      intro b hb
      have := removeDuplicatesAux_key_not_seen rest (eventKey e₀ :: seen) b hb
      intro hkey
      exact this (hkey ▸ List.mem_cons_self _ _)

/-- Every input key not yet in `seen` is represented in the loop output. -/
theorem removeDuplicatesAux_covers :
    ∀ (l : List EventoCreate) (seen : List (Nat × Nat × PyDateTime)) (e : EventoCreate),
      e ∈ l → seenHas seen (eventKey e) = false →
      ∃ e' ∈ removeDuplicatesAux l seen, eventKey e' = eventKey e
  | [], _, e, he, _ => by simp at he
  | e₀ :: rest, seen, e, he, hns => by
    unfold removeDuplicatesAux
    by_cases h : seenHas seen (eventKey e₀) = true
    · rw [if_pos h]
      rcases List.mem_cons.mp he with rfl | he'
      · rw [h] at hns
        exact absurd hns (by simp)
      · exact removeDuplicatesAux_covers rest seen e he' hns
    · rw [if_neg h]
      rcases List.mem_cons.mp he with rfl | he'
      · exact ⟨e, List.mem_cons_self _ _, rfl⟩
      · by_cases hk : eventKey e = eventKey e₀
        · exact ⟨e₀, List.mem_cons_self _ _, hk.symm⟩
        · have hns' : seenHas (eventKey e₀ :: seen) (eventKey e) = false := by
            unfold seenHas at hns ⊢
            simp only [List.any_cons, Bool.or_eq_false_iff]
            refine ⟨by simpa using fun hkk => hk hkk.symm, hns⟩
          obtain ⟨e', he'', hkey⟩ := removeDuplicatesAux_covers rest (eventKey e₀ :: seen) e he' hns'
          exact ⟨e', List.mem_cons_of_mem _ he'', hkey⟩

/-- Each survivor of the dedup loop is the first input element bearing its key. -/
theorem removeDuplicatesAux_first :
    ∀ (l : List EventoCreate) (seen : List (Nat × Nat × PyDateTime)) (e' : EventoCreate),
      e' ∈ removeDuplicatesAux l seen →
      (l.filter (fun e => decide (eventKey e = eventKey e'))).head? = some e'
  | [], _, e', he' => by simp [removeDuplicatesAux] at he'
  | e₀ :: rest, seen, e', he' => by
    unfold removeDuplicatesAux at he'
    by_cases h : seenHas seen (eventKey e₀) = true
    · rw [if_pos h] at he'
      have hnotin := removeDuplicatesAux_key_not_seen rest seen e' he'
      have hne : eventKey e₀ ≠ eventKey e' := by
        intro hkk
        exact hnotin (hkk ▸ (seenHas_iff seen (eventKey e₀)).mp h)
      rw [List.filter_cons_of_neg (by simpa using hne)]
      exact removeDuplicatesAux_first rest seen e' he'
    · rw [if_neg h] at he'
      rcases List.mem_cons.mp he' with rfl | he''
      · rw [List.filter_cons_of_pos (by simp)]
        rfl
      · have hnotin := removeDuplicatesAux_key_not_seen rest (eventKey e₀ :: seen) e' he''
        have hne : eventKey e₀ ≠ eventKey e' := by
          intro hkk
          exact hnotin (hkk ▸ List.mem_cons_self _ _)
        rw [List.filter_cons_of_neg (by simpa using hne)]
        exact removeDuplicatesAux_first rest (eventKey e₀ :: seen) e' he''

/-- C2: the deduplicator returns a sublist of its input (first-seen order
preserved), no two output events share the `(object_id, event_kind, timestamp)`
key, every key present in the input is present in the output, and each kept
event is the first input occurrence of its key. -/
theorem deduplicator_correct (l : List EventoCreate) :
    (removeDuplicates l).Sublist l ∧
    (removeDuplicates l).Pairwise (fun a b => eventKey a ≠ eventKey b) ∧
    (∀ e ∈ l, ∃ e' ∈ removeDuplicates l, eventKey e' = eventKey e) ∧
    (∀ e' ∈ removeDuplicates l,
      (l.filter (fun e => decide (eventKey e = eventKey e'))).head? = some e') := by
  refine ⟨removeDuplicatesAux_sublist l [], removeDuplicatesAux_pairwise l [], ?_, ?_⟩
  · intro e he
    exact removeDuplicatesAux_covers l [] e he rfl
  · intro e' he'
    exact removeDuplicatesAux_first l [] e' he'

/-- C2 (witness): a duplicated two-element batch. -/
theorem deduplicator_correct_witness :
    (removeDuplicates [⟨3, 1, 1, ⟨2025, 1, 2, 3, 4, 5⟩, none⟩,
        ⟨3, 1, 1, ⟨2025, 1, 2, 3, 4, 5⟩, none⟩]).Sublist
      [⟨3, 1, 1, ⟨2025, 1, 2, 3, 4, 5⟩, none⟩, ⟨3, 1, 1, ⟨2025, 1, 2, 3, 4, 5⟩, none⟩] ∧
    removeDuplicates [⟨3, 1, 1, ⟨2025, 1, 2, 3, 4, 5⟩, none⟩,
        ⟨3, 1, 1, ⟨2025, 1, 2, 3, 4, 5⟩, none⟩] =
      [⟨3, 1, 1, ⟨2025, 1, 2, 3, 4, 5⟩, none⟩] :=
  ⟨(deduplicator_correct _).1, by decide⟩

/-! Section: Known-IP fallback (C6) -/

/-- The claim's description of `_find_by_ip`, written from the spec's words
(refinement reference, not from the source): take the FIRST loaded IP occurring
as a substring of the line and return the result of `resolve` on it; `none`
when no loaded IP occurs in the line. -/
def claimedResolveByKnownIp (s : ServiceState) (line : String) : Option Nat :=
  match s.ipList.find? (fun ip => strIn ip line) with
  | some ip => (getObjetoIdByIdentifier s (pyStripStr ip)).1
  | none => none

/-- When no IP in the scanned list occurs in the line, the loop falls through
with the state untouched. -/
theorem findByIpAux_none_of_no_match :
    ∀ (l : List String) (s : ServiceState) (line : String),
      (∀ ip ∈ l, strIn ip line = false) → findByIpAux s line l = (none, s)
  | [], _, _, _ => rfl
  | ip :: rest, s, line, h => by
    unfold findByIpAux
    rw [if_neg (by rw [h ip (List.mem_cons_self _ _)]; exact Bool.false_ne_true)]
    exact findByIpAux_none_of_no_match rest s line
      (fun ip' h' => h ip' (List.mem_cons_of_mem _ h'))

/-- One loop step over an IP not occurring in the line: skipped, state kept. -/
theorem findByIpAux_cons_nomatch (s : ServiceState) (line ip : String) (rest : List String)
    (hm : strIn ip line = false) :
    findByIpAux s line (ip :: rest) = findByIpAux s line rest := by
  conv_lhs => unfold findByIpAux
  rw [if_neg (by rw [hm]; exact Bool.false_ne_true)]

/-- One loop step over a matching IP whose resolution is falsy (`None` or `0`):
skipped, state advanced by the resolve call. -/
theorem findByIpAux_cons_falsy (s : ServiceState) (line ip : String) (rest : List String)
    (hm : strIn ip line = true)
    (hf : truthyOpt (getObjetoIdByIdentifier s (pyStripStr ip)).1 = false) :
    findByIpAux s line (ip :: rest) =
      findByIpAux (getObjetoIdByIdentifier s (pyStripStr ip)).2 line rest := by
  conv_lhs => unfold findByIpAux
  rw [if_pos hm, if_neg (by rw [hf]; exact Bool.false_ne_true)]

/-- One loop step over a matching IP whose resolution is truthy: that
resolution (id and state) is returned. -/
theorem findByIpAux_cons_truthy (s : ServiceState) (line ip : String) (rest : List String)
    (hm : strIn ip line = true)
    (hf : truthyOpt (getObjetoIdByIdentifier s (pyStripStr ip)).1 = true) :
    findByIpAux s line (ip :: rest) = getObjetoIdByIdentifier s (pyStripStr ip) := by
  unfold findByIpAux
  rw [if_pos hm, if_pos hf]

/-- States reachable by `_find_by_ip`'s scan: from state `s` with remaining IPs
`l`, the loop may pass over an IP not occurring in the line (state kept) or a
matching IP whose resolution is falsy (`None` or `0`; state advanced by that
resolve call).  `ScanReaches line s l s' l'` holds when the scan can move from
`(s, l)` to `(s', l')` by such steps only — so reaching `(s₁, [])` means every
matching IP resolved falsy, and reaching `(s₁, ip :: rest)` with `ip` matching
and resolving to a nonzero id identifies the FIRST nonzero resolution of the
scan. -/
inductive ScanReaches (line : String) :
    ServiceState → List String → ServiceState → List String → Prop
  | refl (s : ServiceState) (l : List String) : ScanReaches line s l s l
  | skip_nomatch {s : ServiceState} {ip : String} {rest : List String}
      {s' : ServiceState} {l' : List String} :
      strIn ip line = false → ScanReaches line s rest s' l' →
      ScanReaches line s (ip :: rest) s' l'
  | skip_falsy {s : ServiceState} {ip : String} {rest : List String}
      {s' : ServiceState} {l' : List String} :
      strIn ip line = true →
      truthyOpt (getObjetoIdByIdentifier s (pyStripStr ip)).1 = false →
      ScanReaches line (getObjetoIdByIdentifier s (pyStripStr ip)).2 rest s' l' →
      ScanReaches line s (ip :: rest) s' l'

/-- The loop's result is invariant under the skipping steps of the scan. -/
theorem scanReaches_resultInvariant {line : String} {s : ServiceState} {l : List String}
    {s₁ : ServiceState} {l₁ : List String} (h : ScanReaches line s l s₁ l₁) :
    findByIpAux s line l = findByIpAux s₁ line l₁ := by
  induction h with
  | refl s l => rfl
  | skip_nomatch hm _ ih => rw [findByIpAux_cons_nomatch _ _ _ _ hm, ih]
  | skip_falsy hm hf _ ih => rw [findByIpAux_cons_falsy _ _ _ _ hm hf, ih]

/-- Every run of the loop is exhaustively one of: a scan that skips all its
matching IPs as falsy and ends in `(none, final state)`, or a scan that reaches
a first matching IP with a nonzero resolution and returns exactly it. -/
theorem findByIpAux_cases (line : String) :
    ∀ (l : List String) (s : ServiceState),
      (∃ s₁, ScanReaches line s l s₁ [] ∧ findByIpAux s line l = (none, s₁)) ∨
      (∃ s₁ ip rest v s₂, ScanReaches line s l s₁ (ip :: rest) ∧ strIn ip line = true ∧
        getObjetoIdByIdentifier s₁ (pyStripStr ip) = (some v, s₂) ∧ v ≠ 0 ∧
        findByIpAux s line l = (some v, s₂))
  | [], s => Or.inl ⟨s, ScanReaches.refl s [], rfl⟩
  | ip :: rest, s => by
    by_cases hm : strIn ip line = true
    · by_cases ht : truthyOpt (getObjetoIdByIdentifier s (pyStripStr ip)).1 = true
      · rcases hr : getObjetoIdByIdentifier s (pyStripStr ip) with ⟨o, s₂⟩
        rcases o with _ | v
        · rw [hr] at ht
          simp [truthyOpt] at ht
        · have hv : v ≠ 0 := by
            rw [hr] at ht
            simpa [truthyOpt] using ht
          refine Or.inr ⟨s, ip, rest, v, s₂, ScanReaches.refl s (ip :: rest), hm, hr, hv, ?_⟩
          rw [findByIpAux_cons_truthy s line ip rest hm ht, hr]
      · have ht' : truthyOpt (getObjetoIdByIdentifier s (pyStripStr ip)).1 = false := by
          simpa using ht
        have hstep := findByIpAux_cons_falsy s line ip rest hm ht'
        rcases findByIpAux_cases line rest (getObjetoIdByIdentifier s (pyStripStr ip)).2 with
          ⟨s₁, hscan, heq⟩ | ⟨s₁, ip', rest', v, s₂, hscan, hm', hres, hv, heq⟩
        · exact Or.inl ⟨s₁, ScanReaches.skip_falsy hm ht' hscan, by rw [hstep]; exact heq⟩
        · exact Or.inr ⟨s₁, ip', rest', v, s₂, ScanReaches.skip_falsy hm ht' hscan, hm',
            hres, hv, by rw [hstep]; exact heq⟩
    · have hmf : strIn ip line = false := by simpa using hm
      have hstep := findByIpAux_cons_nomatch s line ip rest hmf
      rcases findByIpAux_cases line rest s with
        ⟨s₁, hscan, heq⟩ | ⟨s₁, ip', rest', v, s₂, hscan, hm', hres, hv, heq⟩
      · exact Or.inl ⟨s₁, ScanReaches.skip_nomatch hmf hscan, by rw [hstep]; exact heq⟩
      · exact Or.inr ⟨s₁, ip', rest', v, s₂, ScanReaches.skip_nomatch hmf hscan, hm',
          hres, hv, by rw [hstep]; exact heq⟩

/-- A found id coming out of the loop is never zero. -/
theorem findByIpAux_sound :
    ∀ (l : List String) (s : ServiceState) (line : String) (v : Nat) (s' : ServiceState),
      findByIpAux s line l = (some v, s') → v ≠ 0
  | [], s, line, v, s', h => by simp [findByIpAux] at h
  | ip :: rest, s, line, v, s', h => by
    unfold findByIpAux at h
    by_cases hm : strIn ip line = true
    · rw [if_pos hm] at h
      by_cases ht : truthyOpt (getObjetoIdByIdentifier s (pyStripStr ip)).1 = true

      · rw [if_pos ht] at h
        rcases hres : (getObjetoIdByIdentifier s (pyStripStr ip)).1 with _ | w
        · rw [hres] at ht
          simp [truthyOpt] at ht
        · have hfst := congrArg Prod.fst h
          rw [hres] at hfst
          injection hfst with hw
          rw [hres] at ht
          simp only [truthyOpt, decide_eq_true_eq] at ht
          exact hw ▸ ht
      · rw [if_neg ht] at h
        exact findByIpAux_sound rest _ line v s' h
    · rw [if_neg hm] at h
      exact findByIpAux_sound rest s line v s' h

/-- C6 (counterexample): with catalogue records `"1.1.1.1" ↦ 0` and
`"2.2.2.2" ↦ 7`, both of IP kind and loaded, and a line containing both IPs,
`_find_by_ip` returns `7` (it skips the falsy resolution of the first matching
IP), while the claim's "resolve the first occurring IP" reading returns `0`. -/
theorem findByIp_claim_counterexample :
    (findByIp ⟨⟨[⟨"1.1.1.1", 2, 0⟩, ⟨"2.2.2.2", 2, 7⟩], true⟩,
        ["1.1.1.1", "2.2.2.2"], []⟩ "x 1.1.1.1 y 2.2.2.2").1 = some 7 ∧
    claimedResolveByKnownIp ⟨⟨[⟨"1.1.1.1", 2, 0⟩, ⟨"2.2.2.2", 2, 7⟩], true⟩,
        ["1.1.1.1", "2.2.2.2"], []⟩ "x 1.1.1.1 y 2.2.2.2" = some 0 ∧
    (findByIp ⟨⟨[⟨"1.1.1.1", 2, 0⟩, ⟨"2.2.2.2", 2, 7⟩], true⟩,
        ["1.1.1.1", "2.2.2.2"], []⟩ "x 1.1.1.1 y 2.2.2.2").1 ≠
      claimedResolveByKnownIp ⟨⟨[⟨"1.1.1.1", 2, 0⟩, ⟨"2.2.2.2", 2, 7⟩], true⟩,
        ["1.1.1.1", "2.2.2.2"], []⟩ "x 1.1.1.1 y 2.2.2.2" := by
  decide

/-- C6 (amended): `_find_by_ip` scans the loaded IP list in order, applies
`resolve` to each IP occurring as a substring of the line, and returns the
first nonzero id so obtained, skipping matching IPs whose resolution is falsy
(`None` or `0`) — not unconditionally the resolution of the first matching IP.
Stated exhaustively: (i) when no loaded IP occurs in the line the result is
`NotFound` with the state unchanged; (ii) a scan that skips all its matching
IPs as falsy ends in `NotFound` at the final scan state; (iii) a scan reaching
a first matching IP with nonzero resolution returns exactly that resolution;
(iv) every call is one of those two shapes (so the result is fully determined
by the scan); and (v) a returned id is never zero. -/
theorem findByIp_amended (s : ServiceState) (line : String) :
    ((∀ ip ∈ s.ipList, strIn ip line = false) → findByIp s line = (none, s)) ∧
    (∀ s₁, ScanReaches line s s.ipList s₁ [] → findByIp s line = (none, s₁)) ∧
    (∀ s₁ ip rest v s₂, ScanReaches line s s.ipList s₁ (ip :: rest) →
      strIn ip line = true → getObjetoIdByIdentifier s₁ (pyStripStr ip) = (some v, s₂) →
      v ≠ 0 → findByIp s line = (some v, s₂)) ∧
    ((∃ s₁, ScanReaches line s s.ipList s₁ [] ∧ findByIp s line = (none, s₁)) ∨
     (∃ s₁ ip rest v s₂, ScanReaches line s s.ipList s₁ (ip :: rest) ∧
       strIn ip line = true ∧ getObjetoIdByIdentifier s₁ (pyStripStr ip) = (some v, s₂) ∧
       v ≠ 0 ∧ findByIp s line = (some v, s₂))) ∧
    (∀ v s', findByIp s line = (some v, s') → v ≠ 0) := by
  refine ⟨fun h => findByIpAux_none_of_no_match s.ipList s line h, ?_, ?_, ?_,
    fun v s' h => findByIpAux_sound s.ipList s line v s' h⟩
  · intro s₁ h
    unfold findByIp
    rw [scanReaches_resultInvariant h]
    rfl
  · intro s₁ ip rest v s₂ hscan hm hres hv
    unfold findByIp
    rw [scanReaches_resultInvariant hscan]
    have ht : truthyOpt (getObjetoIdByIdentifier s₁ (pyStripStr ip)).1 = true := by
      rw [hres]
      simp [truthyOpt, hv]
    rw [findByIpAux_cons_truthy s₁ line ip rest hm ht, hres]
  · exact findByIpAux_cases line s.ipList s

/-- C6 (witness): the amended theorem applied at concrete states — clause (iii)
through a concrete two-step scan that skips the falsy resolution of
`"1.1.1.1" ↦ 0` and returns the nonzero resolution of `"2.2.2.2" ↦ 7`, clause
(v) on that result, and clause (i) on a line with no matching IP. -/
theorem findByIp_amended_witness :
    findByIp ⟨⟨[⟨"1.1.1.1", 2, 0⟩, ⟨"2.2.2.2", 2, 7⟩], true⟩,
        ["1.1.1.1", "2.2.2.2"], []⟩ "y 1.1.1.1 z 2.2.2.2" =
      (some 7, ⟨⟨[⟨"1.1.1.1", 2, 0⟩, ⟨"2.2.2.2", 2, 7⟩], true⟩,
        ["1.1.1.1", "2.2.2.2"], [("2.2.2.2", 7), ("1.1.1.1", 0)]⟩) ∧
    (7 : Nat) ≠ 0 ∧
    findByIp ⟨⟨[⟨"1.1.1.1", 2, 0⟩, ⟨"2.2.2.2", 2, 7⟩], true⟩,
        ["1.1.1.1", "2.2.2.2"], []⟩ "zzz" =
      (none, ⟨⟨[⟨"1.1.1.1", 2, 0⟩, ⟨"2.2.2.2", 2, 7⟩], true⟩,
        ["1.1.1.1", "2.2.2.2"], []⟩) :=
  ⟨(findByIp_amended ⟨⟨[⟨"1.1.1.1", 2, 0⟩, ⟨"2.2.2.2", 2, 7⟩], true⟩,
        ["1.1.1.1", "2.2.2.2"], []⟩ "y 1.1.1.1 z 2.2.2.2").2.2.1
      ⟨⟨[⟨"1.1.1.1", 2, 0⟩, ⟨"2.2.2.2", 2, 7⟩], true⟩,
        ["1.1.1.1", "2.2.2.2"], [("1.1.1.1", 0)]⟩ "2.2.2.2" [] 7
      ⟨⟨[⟨"1.1.1.1", 2, 0⟩, ⟨"2.2.2.2", 2, 7⟩], true⟩,
        ["1.1.1.1", "2.2.2.2"], [("2.2.2.2", 7), ("1.1.1.1", 0)]⟩
      (ScanReaches.skip_falsy (by decide) (by decide)
        (ScanReaches.refl _ _)) (by decide) (by decide) (by decide),
   (findByIp_amended ⟨⟨[⟨"1.1.1.1", 2, 0⟩, ⟨"2.2.2.2", 2, 7⟩], true⟩,
        ["1.1.1.1", "2.2.2.2"], []⟩ "y 1.1.1.1 z 2.2.2.2").2.2.2.2 7
      ⟨⟨[⟨"1.1.1.1", 2, 0⟩, ⟨"2.2.2.2", 2, 7⟩], true⟩,
        ["1.1.1.1", "2.2.2.2"], [("2.2.2.2", 7), ("1.1.1.1", 0)]⟩ (by decide),
   (findByIp_amended ⟨⟨[⟨"1.1.1.1", 2, 0⟩, ⟨"2.2.2.2", 2, 7⟩], true⟩,
        ["1.1.1.1", "2.2.2.2"], []⟩ "zzz").1 (by decide)⟩

/-! Section: Run-level failure propagation (C7) -/

/-- C7: if the identifier-catalogue load fails, `process_all_traps` re-raises
before anything else happens: the whole run is the error — no file result, no
SQL script and no error file is ever produced (the load is the first action,
ahead of file discovery). -/
theorem loadFailure_aborts_run (db : Database) (files : List (String × List String))
    (h : db.available = false) :
    loadIpList db = Except.error () ∧
    processAllTraps db files = Except.error () := by
  have hl : loadIpList db = Except.error () := by
    unfold loadIpList
    rw [if_neg (by rw [h]; exact Bool.false_ne_true)]
  refine ⟨hl, ?_⟩
  unfold processAllTraps
  rw [hl]

/-- C7 (witness): a concrete unavailable database, one discovered file. -/
theorem loadFailure_aborts_run_witness :
    loadIpList ⟨[⟨"10.0.0.9", 2, 5⟩], false⟩ = Except.error () ∧
    processAllTraps ⟨[⟨"10.0.0.9", 2, 5⟩], false⟩
      [("traps1.txt", ["a line"])] = Except.error () :=
  loadFailure_aborts_run ⟨[⟨"10.0.0.9", 2, 5⟩], false⟩ [("traps1.txt", ["a line"])] rfl

/-! Section: Error report writer (C8) -/

/-- `String.join` distributes over `::`. -/
theorem string_join_cons (a : String) (l : List String) :
    String.join (a :: l) = a ++ String.join l := by
  show l.foldl (· ++ ·) ("" ++ a) = a ++ String.join l
  rw [string_foldl_append l ("" ++ a), String.empty_append]

/-- Newline count of the error-report body: one per entry when entries are
newline-free. -/
theorem count_newline_join : ∀ (l : List String),
    (∀ e ∈ l, e.data.count '\n' = 0) →
    (String.join (l.map (fun e => e ++ "\n"))).data.count '\n' = l.length
  | [], _ => rfl
  | a :: l, h => by
    have ih := count_newline_join l (fun e he => h e (List.mem_cons_of_mem _ he))
    have ha := h a (List.mem_cons_self _ _)
    have h1 : ("\n" : String).data.count '\n' = 1 := by decide
    rw [List.map_cons, string_join_cons, String.data_append, String.data_append,
      List.count_append, List.count_append, ha, ih, h1, List.length_cons]
    omega

/-- C8: with an empty error list the writer step returns `None` and produces no
file; with a non-empty list it produces the `ErroresImportant-<base>` file
whose content is one line (`entry` + newline) per entry — in particular the
newline count equals the number of entries when the entries are newline-free. -/
theorem errorWriter_contract (errors : List String) (filename : String) :
    (errors = [] → errorFileStep errors filename = none) ∧
    (errors ≠ [] → errorFileStep errors filename =
      some (errorFileName filename, generateErrorContent errors)) ∧
    generateErrorContent errors = String.join (errors.map (fun e => e ++ "\n")) ∧
    ((∀ e ∈ errors, e.data.count '\n' = 0) →
      (generateErrorContent errors).data.count '\n' = errors.length) := by
  have hbody : generateErrorContent errors =
      String.join (errors.map (fun e => e ++ "\n")) := by
    unfold generateErrorContent
    exact foldl_append_map_eq_join (fun e => e ++ "\n") errors
  refine ⟨?_, ?_, hbody, ?_⟩
  · intro h
    rw [errorFileStep, if_pos h]
  · intro h
    rw [errorFileStep, if_neg h]
    rfl
  · intro h
    rw [hbody]
    exact count_newline_join errors h

/-- C8 (witness): the writer applied to an empty and to a one-entry list. -/
theorem errorWriter_contract_witness :
    errorFileStep [] "t.txt" = none ∧
    errorFileStep ["Error: bad line"] "t.txt" =
      some (errorFileName "t.txt", generateErrorContent ["Error: bad line"]) ∧
    (generateErrorContent ["Error: bad line"]).data.count '\n' = 1 :=
  ⟨(errorWriter_contract [] "t.txt").1 rfl,
   (errorWriter_contract ["Error: bad line"] "t.txt").2.1 (by simp),
   (errorWriter_contract ["Error: bad line"] "t.txt").2.2.2 (by decide)⟩

/-! Section: The extractor's collapsed success path (C9) -/

/-- The tunnel path never returns an event: every branch — including the one
reached after successful resolution, date parsing and classification — yields
`none`, because the final constructor call always fails. -/
theorem processTunnelLine_fst_none (s : ServiceState) (line : String)
    (parts : List String) : (processTunnelLine s line parts).1 = none := by
  unfold processTunnelLine
  split
  · rfl
  · split
    · split
      · rfl
      · split
        · rfl
        · split
          · rfl
          · rfl
    · rfl

/-- The `Object_Name=` path never returns an event, for the same reason. -/
theorem processObjectNameLine_fst_none (s : ServiceState) (line : String)
    (parts : List String) : (processObjectNameLine s line parts).1 = none := by
  unfold processObjectNameLine
  split
  · rfl
  · split
    · split
      · rfl
      · split
        · rfl
        · split
          · rfl
          · rfl
    · rfl

/-- C9: the extractor never emits a candidate event at all — both extraction
paths end in the `EventoCreate(..., Observaciones=[])` call, which always
fails and is caught to `None` — so the claimed field invariants describe
events the source cannot produce; concretely, a line whose identifier record
maps to object id 0, and equally one whose resolution fully succeeds, each
yield an empty event list and one per-line error. -/
theorem extractor_never_emits :
    (∀ (s : ServiceState) (line : String) (parts : List String),
      (processTunnelLine s line parts).1 = none) ∧
    (∀ (s : ServiceState) (line : String) (parts : List String),
      (processObjectNameLine s line parts).1 = none) ∧
    (processFile (mkLoadedState [⟨"T1", 2, 0⟩]) "traps.txt" [c1Line]).1.events = [] ∧
    (processFile (mkLoadedState [⟨"T1", 2, 0⟩]) "traps.txt" [c1Line]).1.errorsCount = 1 ∧
    (processFile (mkLoadedState [⟨"Tunnel7", 2, 5⟩]) "traps.txt"
      ["2025-3-1409:15:42.500\tTunnel7, changed state to up"]).1.events = [] ∧
    (processFile (mkLoadedState [⟨"Tunnel7", 2, 5⟩]) "traps.txt"
      ["2025-3-1409:15:42.500\tTunnel7, changed state to up"]).1.errorsCount = 1 :=
  ⟨processTunnelLine_fst_none, processObjectNameLine_fst_none,
   by decide, by decide, by decide, by decide⟩

/-! Section: Resolution cache frame (C10) -/

/-- Prepending a fresh key to the cache preserves every present entry. -/
theorem cacheLookup_cons_preserve (cache : List (String × Nat)) (frag k : String)
    (w v : Nat) (hfrag : cacheLookup cache frag = none)
    (hk : cacheLookup cache k = some v) :
    cacheLookup ((frag, w) :: cache) k = some v := by
  show (if frag = k then some w else cacheLookup cache k) = some v
  have hne : frag ≠ k := by
    intro hfk
    rw [hfk, hk] at hfrag
    exact Option.noConfusion hfrag
  rw [if_neg hne]
  exact hk

/-- C10: a `resolve` call touches no state besides the memoization cache; the
cache is either left unchanged or extended by inserting the queried fragment
mapped to the found id (only when the fragment was not yet cached); a
not-found lookup, a storage error, or an empty fragment leaves the whole state
unchanged; and no existing cache entry is ever overwritten. -/
theorem resolve_cache_frame (s : ServiceState) (frag : String) :
    (getObjetoIdByIdentifier s frag).2.db = s.db ∧
    (getObjetoIdByIdentifier s frag).2.ipList = s.ipList ∧
    (frag = "" → getObjetoIdByIdentifier s frag = (none, s)) ∧
    ((getObjetoIdByIdentifier s frag).1 = none →
      (getObjetoIdByIdentifier s frag).2 = s) ∧
    (s.db.available = false → (getObjetoIdByIdentifier s frag).2 = s) ∧
    ((getObjetoIdByIdentifier s frag).2.cache = s.cache ∨
      ∃ v, (getObjetoIdByIdentifier s frag).1 = some v ∧
        cacheLookup s.cache frag = none ∧
        (getObjetoIdByIdentifier s frag).2.cache = (frag, v) :: s.cache) ∧
    (∀ k v, cacheLookup s.cache k = some v →
      cacheLookup (getObjetoIdByIdentifier s frag).2.cache k = some v) := by
  by_cases hf : frag = ""
  · have hEq : getObjetoIdByIdentifier s frag = (none, s) := by
      unfold getObjetoIdByIdentifier
      rw [if_pos hf]
    rw [hEq]
    exact ⟨rfl, rfl, fun _ => rfl, fun _ => rfl, fun _ => rfl, Or.inl rfl,
      fun _ _ hk => hk⟩
  · rcases hc : cacheLookup s.cache frag with _ | v
    · by_cases hdb : s.db.available = true
      · rcases hq : (s.db.catalogue.filter (fun r => strIn frag r.valor)).head? with _ | r
        · have hEq : getObjetoIdByIdentifier s frag = (none, s) := by
            unfold getObjetoIdByIdentifier
            rw [if_neg hf, hc, if_pos hdb, hq]
          rw [hEq]
          exact ⟨rfl, rfl, fun h => absurd h hf, fun _ => rfl, fun _ => rfl,
            Or.inl rfl, fun _ _ hk => hk⟩
        · have hEq : getObjetoIdByIdentifier s frag =
              (some r.objetoId, { s with cache := (frag, r.objetoId) :: s.cache }) := by
            unfold getObjetoIdByIdentifier
            rw [if_neg hf, hc, if_pos hdb, hq]
          rw [hEq]
          refine ⟨rfl, rfl, fun h => absurd h hf,
            fun h => Option.noConfusion h, fun h => ?_, Or.inr ⟨r.objetoId, rfl, hc ▸ rfl, rfl⟩,
            fun k v hk => cacheLookup_cons_preserve s.cache frag k r.objetoId v hc hk⟩
          rw [hdb] at h
          exact Bool.noConfusion h
      · have hEq : getObjetoIdByIdentifier s frag = (none, s) := by
          unfold getObjetoIdByIdentifier
          rw [if_neg hf, hc, if_neg hdb]
        rw [hEq]
        exact ⟨rfl, rfl, fun h => absurd h hf, fun _ => rfl, fun _ => rfl,
          Or.inl rfl, fun _ _ hk => hk⟩
    · have hEq : getObjetoIdByIdentifier s frag = (some v, s) := by
        unfold getObjetoIdByIdentifier
        rw [if_neg hf, hc]
      rw [hEq]
      exact ⟨rfl, rfl, fun h => absurd h hf, fun h => Option.noConfusion h,
        fun _ => rfl, Or.inl rfl, fun _ _ hk => hk⟩

/-- C10 (witness): the frame conditions applied at a concrete state and
fragment: a cache-missing fragment found in the catalogue is inserted, and the
pre-existing entry survives. -/
theorem resolve_cache_frame_witness :
    (getObjetoIdByIdentifier ⟨⟨[⟨"R9", 1, 4⟩], true⟩, [], [("old", 3)]⟩ "R9").2.db =
      (⟨[⟨"R9", 1, 4⟩], true⟩ : Database) ∧
    cacheLookup
      (getObjetoIdByIdentifier ⟨⟨[⟨"R9", 1, 4⟩], true⟩, [], [("old", 3)]⟩ "R9").2.cache
      "old" = some 3 :=
  ⟨(resolve_cache_frame ⟨⟨[⟨"R9", 1, 4⟩], true⟩, [], [("old", 3)]⟩ "R9").1,
   (resolve_cache_frame ⟨⟨[⟨"R9", 1, 4⟩], true⟩, [], [("old", 3)]⟩ "R9").2.2.2.2.2.2
     "old" 3 (by decide)⟩

end Gestel
